import Mathlib

/-!
Shallow embedding of `src/.history/app/routes/auth_20250804170400.py`
(registration, login, current-user and workspace-admin routes of the
business_bot service) together with the spec-described collaborators
(`app/auth/auth_handler.py`, `app/models/user.py`, `app/database.py`) that
are not present in the source tree.

Conventions of the embedding:
* Python `dict`s (the dynamically shaped `user_dict`) are association lists
  `List (String × Value)` with Python's assignment / `del` / lookup semantics.
* Python `str.lower()` / `str.strip()` are modelled by `pyLower` / `pyStrip`.
* The MongoDB collection `db.users` is a `List Dict`; `find_one` is
  `List.find?`, `count_documents` is `List.length`, `insert_one` appends.
  A storage-layer failure of `insert_one` (only possible through concurrent
  writers or an unavailable store) is passed in explicitly as an
  `Option StoreExn` argument.
* `HTTPException(status_code=400/401, detail=...)` raised by the routes is
  mapped to the spec's error vocabulary (§7): the three input-validation
  raises become `Err.validationError` with the source's detail string, the
  duplicate-email raises become `Err.conflictError`, the login failure
  becomes `Err.authenticationError`, and a re-raised storage exception
  surfaces as `Err.storageError`.
* `datetime.utcnow()` and token times are abstract instants (`Nat`, in the
  token-lifetime unit of minutes); the password hasher
  `get_password_hash` is an abstract `String → String` parameter.

Two lines of the source file do not parse as Python and are repaired to
their evident intent in this embedding; the corresponding claims are
settled as bugs of the code:
* line 72 reads `user_dict["role"] = "member"a` (stray `a` after the string
  literal, a SyntaxError); embedded as `user_dict["role"] = "member"`.
* line 80, the body of the `try:` opened on line 79, is not indented (a
  SyntaxError); embedded as a well-formed try/except around the insert.
-/

/-- Model of Python `str.lower()`: lowercase every character. -/
def pyLower (s : String) : String := String.mk (s.data.map Char.toLower)

/-- Model of Python `str.strip()`: drop leading and trailing whitespace. -/
def pyStrip (s : String) : String :=
  String.mk (((s.data.dropWhile Char.isWhitespace).reverse.dropWhile
    Char.isWhitespace).reverse)

/-- The email normalization `user.email.lower().strip()` used throughout
the source (lines 46, 58, 62). -/
def normEmail (e : String) : String := pyStrip (pyLower e)

/-- Values stored in the dynamically shaped `user_dict`: strings, booleans,
timestamps (abstract instants) and lists (only the empty `workspaces` list
is ever stored by this file). -/
inductive Value where
  | vStr : String → Value
  | vBool : Bool → Value
  | vNat : Nat → Value
  | vList : List Value → Value

/-- A Python `dict` with string keys, as an insertion-ordered association
list. -/
abbrev Dict := List (String × Value)

/-- Python `d[k] = v`: overwrite in place if the key exists, else append. -/
def dictSet : Dict → String → Value → Dict
  | [], k, v => [(k, v)]
  | (k1, v1) :: rest, k, v =>
      if k1 = k then (k, v) :: rest else (k1, v1) :: dictSet rest k v

/-- Python `del d[k]`. -/
def dictDel (d : Dict) (k : String) : Dict := d.filter (fun kv => kv.1 != k)

/-- Python `d.get(k)` / attribute access on the record. -/
def dictGet (d : Dict) (k : String) : Option Value :=
  (d.find? (fun kv => kv.1 = k)).map (fun kv => kv.2)

/-- The spec's error vocabulary (§7), carrying the source's `detail`
string. -/
inductive Err where
  | validationError : String → Err
  | conflictError : String → Err
  | authenticationError : String → Err
  | storageError : String → Err

/-- The error kind, forgetting the detail string (§7 classifies errors by
kind). -/
inductive ErrKind where
  | validation | conflict | authentication | storage
deriving DecidableEq

def Err.kind : Err → ErrKind
  | .validationError _ => .validation
  | .conflictError _ => .conflict
  | .authenticationError _ => .authentication
  | .storageError _ => .storage

/-- Storage-layer exceptions that `db.users.insert_one` can raise (source
lines 81-87): pymongo's `DuplicateKeyError`, or any other storage
failure. -/
inductive StoreExn where
  | duplicateKeyError : String → StoreExn
  | otherStoreError : String → StoreExn

/-- The `UserCreate` request body: the three fields the route reads
(`email`, `password`, `full_name`). -/
structure UserCreate where
  email : String
  password : String
  full_name : String

/-- Python `user.dict()` (source line 57): the request body as a dict. -/
def UserCreate.dict (u : UserCreate) : Dict :=
  [("email", .vStr u.email), ("password", .vStr u.password),
   ("full_name", .vStr u.full_name)]

/-- The MongoDB query on the `email` field as a predicate on stored
records (source line 46): the record's `email` field is the string `e`. -/
def emailMatches (e : String) (d : Dict) : Bool :=
  match dictGet d "email" with
  | some (.vStr s) => s == e
  | _ => false

/-- Source lines 57-76: build `user_dict` from the request — normalize
`email`, trim `full_name`, hash the password, mirror the normalized email
into `username`, stamp `created_at`/`updated_at`, start with empty
`workspaces`, branch on `existing_users == 0` for `role`/`is_admin`, and
delete the plaintext `password` key. Line 72 of the source
(`user_dict["role"] = "member"a`) is a SyntaxError; it is embedded as its
evident intent `"member"`. -/
def mkUserDict (get_password_hash : String → String) (now : Nat)
    (existing_users : Nat) (user : UserCreate) : Dict :=
  let d := user.dict
  let d := dictSet d "email" (.vStr (normEmail user.email))
  let d := dictSet d "full_name" (.vStr (pyStrip user.full_name))
  let d := dictSet d "hashed_password" (.vStr (get_password_hash user.password))
  let d := dictSet d "username" (.vStr (normEmail user.email))
  let d := dictSet d "created_at" (.vNat now)
  let d := dictSet d "updated_at" (.vNat now)
  let d := dictSet d "workspaces" (.vList [])
  let d := if existing_users = 0 then
      dictSet (dictSet d "role" (.vStr "admin")) "is_admin" (.vBool true)
    else
      dictSet (dictSet d "role" (.vStr "member")) "is_admin" (.vBool false)
  dictDel d "password"

/-- Modelled from the spec: the `User` response model (`app/models/user.py`
is not in the source tree). §4.1: the created User is returned "with
`passwordHash` and raw `password` never exposed to the caller", so the
response view of a record drops exactly the credential fields; pydantic's
`response_model=User` performs this shaping at the boundary. -/
def userResponse (d : Dict) : Dict :=
  d.filter (fun kv => (kv.1 != "password") && (kv.1 != "hashed_password"))

/-- Source lines 21-90, the `register` route, repaired at its two syntax
errors (lines 72 and 80, see the file header). Arguments: the password
hasher, the current instant, the id the store assigns on insert, the
current `db.users` contents, the outcome of the storage layer at
`insert_one` (`none` = the insert succeeds, otherwise the raised
exception), and the request body. Returns the response dict and the new
store contents, or the error raised. The store-assigned `_id` is written
into the response (line 88); the modelled stored record itself keeps the
fields the route wrote. -/
def register (get_password_hash : String → String) (now : Nat)
    (inserted_id : String) (db : List Dict) (insertExn : Option StoreExn)
    (user : UserCreate) : Except Err (Dict × List Dict) :=
  if user.email = "" ∨ user.password = "" ∨ user.full_name = "" then
    .error (.validationError "Email, password, and full name are required")
  else if user.password.length < 6 then
    .error (.validationError "Password must be at least 6 characters")
  else if (pyStrip user.full_name).length < 2 then
    .error (.validationError "Full name must be at least 2 characters")
  else if (db.find? (emailMatches (normEmail user.email))).isSome then
    .error (.conflictError "Email already registered")
  else
    let existing_users := db.length
    let user_dict := mkUserDict get_password_hash now existing_users user
    match insertExn with
    | some (.duplicateKeyError _) =>
        .error (.conflictError "User with this email already exists")
    | some (.otherStoreError msg) => .error (.storageError msg)
    | none =>
        .ok (userResponse (dictSet user_dict "_id" (.vStr inserted_id)),
             db ++ [user_dict])

/-- Modelled from the spec: the Password Hasher's `verify` (§4.4,
`app/auth/auth_handler.py` is not in the source tree): true iff the
plaintext reproduces the stored `hashed_password` under the hasher. -/
def verify_password (get_password_hash : String → String) (plain : String)
    (d : Dict) : Bool :=
  match dictGet d "hashed_password" with
  | some (.vStr h) => get_password_hash plain == h
  | _ => false

/-- Modelled from the spec: `authenticate_user` (§4.2,
`app/auth/auth_handler.py` is not in the source tree): normalize the
email, look the user up in the store, verify the password against the
stored hash; the user on success, nothing on any failure. -/
def authenticate_user (get_password_hash : String → String) (db : List Dict)
    (email password : String) : Option Dict :=
  match db.find? (emailMatches (normEmail email)) with
  | none => none
  | some u => if verify_password get_password_hash password u then some u else none

/-- A decoded token: the `sub` claim and the absolute expiry instant
(issuance time plus lifetime, in minutes — §3 Token). -/
structure TokenData where
  sub : String
  exp : Nat

/-- Modelled from the spec: `create_access_token` (§4.3,
`app/auth/auth_handler.py` is not in the source tree): a signed token
encoding the subject and the absolute expiry `now + lifetime`. -/
def create_access_token (sub : String) (now expires_delta : Nat) : TokenData :=
  ⟨sub, now + expires_delta⟩

/-- The `/login` response body: the access token and the token-kind
marker. -/
structure LoginResponse where
  access_token : TokenData
  token_type : String

/-- Attribute access `user.email` on a stored record. -/
def userEmail (d : Dict) : String :=
  match dictGet d "email" with
  | some (.vStr s) => s
  | _ => ""

/-- Source lines 93-109, the `login` route: authenticate, raise 401
`"Incorrect email or password"` on failure, else issue a token for
`user.email` expiring `settings.access_token_expire_minutes` from now and
return it with `token_type = "bearer"`. -/
def login (get_password_hash : String → String)
    (now access_token_expire_minutes : Nat) (db : List Dict)
    (username password : String) : Except Err LoginResponse :=
  match authenticate_user get_password_hash db username password with
  | none => .error (.authenticationError "Incorrect email or password")
  | some u =>
      .ok ⟨create_access_token (userEmail u) now access_token_expire_minutes,
           "bearer"⟩

/-- Modelled from the spec: `get_current_active_user` (§4.3 and §6,
`app/auth/auth_handler.py` is not in the source tree): accept the token
only before its expiry, recover the subject, load that user from the
store; every failure is `AuthenticationError("invalid or expired
token")`. -/
def get_current_active_user (db : List Dict) (now : Nat) (token : TokenData) :
    Except Err Dict :=
  if now < token.exp then
    match db.find? (emailMatches token.sub) with
    | some u => .ok u
    | none => .error (.authenticationError "invalid or expired token")
  else
    .error (.authenticationError "invalid or expired token")

/-- A workspace-membership entry of a user's `workspaces` collection
(§3). -/
structure WorkspaceMembership where
  workspace_id : String
  role : String

/-- The authenticated user as seen by the `/check-admin` route: its id,
global `is_admin` flag and `workspaces` collection. -/
structure CurrentUser where
  id : String
  is_admin : Bool
  workspaces : List WorkspaceMembership

/-- Modelled from the spec: `verify_workspace_admin` (§4.5,
`app/auth/auth_handler.py` is not in the source tree): a user is admin of
a workspace iff `is_admin` is globally true, or the user's `workspaces`
collection has an entry for that workspace whose role is `admin` or
`owner`. A pure boolean decision — it never raises for "not admin". -/
def verify_workspace_admin (user : CurrentUser) (workspace_id : String) : Bool :=
  user.is_admin ||
    user.workspaces.any (fun m =>
      m.workspace_id == workspace_id && (m.role == "admin" || m.role == "owner"))

/-- Source lines 116-124, the check-admin route: returns the decision
together with the user's id. -/
def check_admin_access (user : CurrentUser) (workspace_id : String) :
    Bool × String :=
  (verify_workspace_admin user workspace_id, user.id)

/-- A concrete password hasher for the closed-instance theorems. -/
def hash0 : String → String := fun s => String.append s "#hashed"

/-- A concrete registration request (mixed case, padded fields) for the
closed-instance theorems. -/
def user0 : UserCreate := ⟨"A@X.com ", "secret1", " Ann A "⟩

/-- A second concrete registration request for the closed-instance
theorems. -/
def user1 : UserCreate := ⟨"b@x.com", "secret2", "Bob B"⟩

/-- A differently cased, padded spelling of the first request body, used
by the duplicate-registration instances. -/
def userDup : UserCreate := ⟨" a@x.com", "secret2", "Bob B"⟩

theorem mkUserDict_eq (gph : String → String) (now n : Nat) (user : UserCreate) :
    mkUserDict gph now n user =
      [("email", .vStr (normEmail user.email)),
       ("full_name", .vStr (pyStrip user.full_name)),
       ("hashed_password", .vStr (gph user.password)),
       ("username", .vStr (normEmail user.email)),
       ("created_at", .vNat now),
       ("updated_at", .vNat now),
       ("workspaces", .vList []),
       ("role", if n = 0 then .vStr "admin" else .vStr "member"),
       ("is_admin", if n = 0 then .vBool true else .vBool false)] := by
  by_cases h : n = 0 <;>
    simp [mkUserDict, UserCreate.dict, dictSet, dictDel, h, List.filter]

theorem register_ok (gph : String → String) (now : Nat) (iid : String)
    (db : List Dict) (user : UserCreate)
    (h1 : user.email ≠ "") (h2 : user.password ≠ "") (h3 : user.full_name ≠ "")
    (h4 : ¬ user.password.length < 6)
    (h5 : ¬ (pyStrip user.full_name).length < 2)
    (h6 : db.find? (emailMatches (normEmail user.email)) = none) :
    register gph now iid db none user =
      .ok (userResponse (dictSet (mkUserDict gph now db.length user) "_id"
             (.vStr iid)),
           db ++ [mkUserDict gph now db.length user]) := by
  simp [register, h1, h2, h3, h4, h5, h6]

theorem dictGet_mkUserDict_role (gph : String → String) (now n : Nat)
    (user : UserCreate) :
    dictGet (mkUserDict gph now n user) "role" =
      some (if n = 0 then .vStr "admin" else .vStr "member") := by
  by_cases h : n = 0 <;> simp [mkUserDict_eq, dictGet, List.find?, h]

theorem dictGet_mkUserDict_email (gph : String → String) (now n : Nat)
    (user : UserCreate) :
    dictGet (mkUserDict gph now n user) "email" =
      some (.vStr (normEmail user.email)) := by
  simp [mkUserDict_eq, dictGet, List.find?]

theorem dictGet_mkUserDict_password (gph : String → String) (now n : Nat)
    (user : UserCreate) :
    dictGet (mkUserDict gph now n user) "password" = none := by
  simp [mkUserDict_eq, dictGet, List.find?]

theorem dictGet_mkUserDict_is_admin (gph : String → String) (now n : Nat)
    (user : UserCreate) :
    dictGet (mkUserDict gph now n user) "is_admin" =
      some (if n = 0 then .vBool true else .vBool false) := by
  by_cases h : n = 0 <;> simp [mkUserDict_eq, dictGet, List.find?, h]

theorem dictGet_mkUserDict_username (gph : String → String) (now n : Nat)
    (user : UserCreate) :
    dictGet (mkUserDict gph now n user) "username" =
      some (.vStr (normEmail user.email)) := by
  simp [mkUserDict_eq, dictGet, List.find?]

theorem dictGet_mkUserDict_hashed (gph : String → String) (now n : Nat)
    (user : UserCreate) :
    dictGet (mkUserDict gph now n user) "hashed_password" =
      some (.vStr (gph user.password)) := by
  simp [mkUserDict_eq, dictGet, List.find?]

theorem dictGet_userResponse_password (d : Dict) :
    dictGet (userResponse d) "password" = none := by
  induction d with
  | nil => rfl
  | cons a t ih =>
      cases hp : ((a.1 != "password") && (a.1 != "hashed_password")) with
      | false => simpa [userResponse, List.filter, hp] using ih
      | true =>
          have hne : ¬ (a.1 = "password") := by
            intro he
            simp [he] at hp
          simp only [userResponse, List.filter, hp] at ih ⊢
          simpa [dictGet, List.find?, hne] using ih

theorem dictGet_userResponse_hashed (d : Dict) :
    dictGet (userResponse d) "hashed_password" = none := by
  induction d with
  | nil => rfl
  | cons a t ih =>
      cases hp : ((a.1 != "password") && (a.1 != "hashed_password")) with
      | false => simpa [userResponse, List.filter, hp] using ih
      | true =>
          have hne : ¬ (a.1 = "hashed_password") := by
            intro he
            simp [he] at hp
          simp only [userResponse, List.filter, hp] at ih ⊢
          simp [dictGet, List.find?, hne]

/-- C1: a successful `register` call creates a user with `role = admin,
is_admin = true` exactly when the store count at the privilege check is 0,
and with `role = member, is_admin = false` when that count is nonzero
(role branch as repaired; source line 72 is a SyntaxError). -/
theorem register_role_assignment (gph : String → String) (now : Nat)
    (iid : String) (db : List Dict) (user : UserCreate)
    (h1 : user.email ≠ "") (h2 : user.password ≠ "") (h3 : user.full_name ≠ "")
    (h4 : ¬ user.password.length < 6)
    (h5 : ¬ (pyStrip user.full_name).length < 2)
    (h6 : db.find? (emailMatches (normEmail user.email)) = none) :
    register gph now iid db none user =
      .ok (userResponse (dictSet (mkUserDict gph now db.length user) "_id"
             (.vStr iid)),
           db ++ [mkUserDict gph now db.length user]) ∧
    (db.length = 0 →
      dictGet (mkUserDict gph now db.length user) "role" = some (.vStr "admin") ∧
      dictGet (mkUserDict gph now db.length user) "is_admin" =
        some (.vBool true)) ∧
    (db.length ≠ 0 →
      dictGet (mkUserDict gph now db.length user) "role" = some (.vStr "member") ∧
      dictGet (mkUserDict gph now db.length user) "is_admin" =
        some (.vBool false)) := by
  refine ⟨register_ok gph now iid db user h1 h2 h3 h4 h5 h6, ?_, ?_⟩ <;>
    intro h <;>
    simp [dictGet_mkUserDict_role, dictGet_mkUserDict_is_admin, h]

/-- C1 witness: registering against the empty store yields the admin role
and flag; registering against a one-user store yields the member role and
flag. -/
theorem register_role_assignment_witness :
    (dictGet (mkUserDict hash0 100 0 user0) "role" = some (.vStr "admin") ∧
     dictGet (mkUserDict hash0 100 0 user0) "is_admin" = some (.vBool true)) ∧
    (dictGet (mkUserDict hash0 101 1 user1) "role" = some (.vStr "member") ∧
     dictGet (mkUserDict hash0 101 1 user1) "is_admin" = some (.vBool false)) :=
  ⟨(register_role_assignment hash0 100 "id0" [] user0 (by decide) (by decide)
      (by decide) (by decide) (by decide) rfl).2.1 rfl,
   (register_role_assignment hash0 101 "id1" [mkUserDict hash0 100 0 user0]
      user1 (by decide) (by decide) (by decide) (by decide) (by decide)
      rfl).2.2 (by decide)⟩

/-- C2: every valid registration persists a record whose `email` field is
the input email lowercased and trimmed, which has no plaintext `password`
field, and whose only password-derived field is the hasher's output in
`hashed_password`. -/
theorem register_email_normalized_no_plaintext (gph : String → String)
    (now : Nat) (iid : String) (db : List Dict) (user : UserCreate)
    (h1 : user.email ≠ "") (h2 : user.password ≠ "") (h3 : user.full_name ≠ "")
    (h4 : ¬ user.password.length < 6)
    (h5 : ¬ (pyStrip user.full_name).length < 2)
    (h6 : db.find? (emailMatches (normEmail user.email)) = none) :
    register gph now iid db none user =
      .ok (userResponse (dictSet (mkUserDict gph now db.length user) "_id"
             (.vStr iid)),
           db ++ [mkUserDict gph now db.length user]) ∧
    dictGet (mkUserDict gph now db.length user) "email" =
      some (.vStr (pyStrip (pyLower user.email))) ∧
    dictGet (mkUserDict gph now db.length user) "password" = none ∧
    dictGet (mkUserDict gph now db.length user) "hashed_password" =
      some (.vStr (gph user.password)) :=
  ⟨register_ok gph now iid db user h1 h2 h3 h4 h5 h6,
   dictGet_mkUserDict_email gph now db.length user,
   dictGet_mkUserDict_password gph now db.length user,
   dictGet_mkUserDict_hashed gph now db.length user⟩

/-- C2 witness: registering a mixed-case, padded email stores the
lowercased trimmed email, no plaintext password field, and the hashed
password. -/
theorem register_email_normalized_no_plaintext_witness :
    register hash0 100 "id0" [] none user0 =
      .ok (userResponse (dictSet (mkUserDict hash0 100 0 user0) "_id"
             (.vStr "id0")),
           [mkUserDict hash0 100 0 user0]) ∧
    dictGet (mkUserDict hash0 100 0 user0) "email" =
      some (.vStr (pyStrip (pyLower user0.email))) ∧
    dictGet (mkUserDict hash0 100 0 user0) "password" = none ∧
    dictGet (mkUserDict hash0 100 0 user0) "hashed_password" =
      some (.vStr (hash0 user0.password)) :=
  register_email_normalized_no_plaintext hash0 100 "id0" [] user0 (by decide)
    (by decide) (by decide) (by decide) (by decide) rfl

/-- C10: every record created by `register` also carries a `username`
field (source lines 61-62) whose value is the normalized email. -/
theorem register_record_username (gph : String → String) (now : Nat)
    (iid : String) (db : List Dict) (user : UserCreate)
    (h1 : user.email ≠ "") (h2 : user.password ≠ "") (h3 : user.full_name ≠ "")
    (h4 : ¬ user.password.length < 6)
    (h5 : ¬ (pyStrip user.full_name).length < 2)
    (h6 : db.find? (emailMatches (normEmail user.email)) = none) :
    register gph now iid db none user =
      .ok (userResponse (dictSet (mkUserDict gph now db.length user) "_id"
             (.vStr iid)),
           db ++ [mkUserDict gph now db.length user]) ∧
    dictGet (mkUserDict gph now db.length user) "username" =
      some (.vStr (pyStrip (pyLower user.email))) :=
  ⟨register_ok gph now iid db user h1 h2 h3 h4 h5 h6,
   dictGet_mkUserDict_username gph now db.length user⟩

/-- C10 witness: the concrete registered record carries
`username = "a@x.com"`, the normalized form of the input email. -/
theorem register_record_username_witness :
    register hash0 100 "id0" [] none user0 =
      .ok (userResponse (dictSet (mkUserDict hash0 100 0 user0) "_id"
             (.vStr "id0")),
           [mkUserDict hash0 100 0 user0]) ∧
    dictGet (mkUserDict hash0 100 0 user0) "username" =
      some (.vStr (pyStrip (pyLower user0.email))) :=
  register_record_username hash0 100 "id0" [] user0 (by decide) (by decide)
    (by decide) (by decide) (by decide) rfl

/-- C3: the `User` value a successful `register` returns to the caller
carries neither the raw `password` nor the `hashed_password` field (the
response model is modelled from the spec, `app/models/user.py` not being
in the source tree). -/
theorem register_response_hides_credentials (gph : String → String)
    (now : Nat) (iid : String) (db : List Dict) (user : UserCreate)
    (h1 : user.email ≠ "") (h2 : user.password ≠ "") (h3 : user.full_name ≠ "")
    (h4 : ¬ user.password.length < 6)
    (h5 : ¬ (pyStrip user.full_name).length < 2)
    (h6 : db.find? (emailMatches (normEmail user.email)) = none) :
    register gph now iid db none user =
      .ok (userResponse (dictSet (mkUserDict gph now db.length user) "_id"
             (.vStr iid)),
           db ++ [mkUserDict gph now db.length user]) ∧
    dictGet (userResponse (dictSet (mkUserDict gph now db.length user) "_id"
      (.vStr iid))) "password" = none ∧
    dictGet (userResponse (dictSet (mkUserDict gph now db.length user) "_id"
      (.vStr iid))) "hashed_password" = none :=
  ⟨register_ok gph now iid db user h1 h2 h3 h4 h5 h6,
   dictGet_userResponse_password _,
   dictGet_userResponse_hashed _⟩

/-- C3 witness: the concrete register response exposes neither `password`
nor `hashed_password`. -/
theorem register_response_hides_credentials_witness :
    register hash0 100 "id0" [] none user0 =
      .ok (userResponse (dictSet (mkUserDict hash0 100 0 user0) "_id"
             (.vStr "id0")),
           [mkUserDict hash0 100 0 user0]) ∧
    dictGet (userResponse (dictSet (mkUserDict hash0 100 0 user0) "_id"
      (.vStr "id0"))) "password" = none ∧
    dictGet (userResponse (dictSet (mkUserDict hash0 100 0 user0) "_id"
      (.vStr "id0"))) "hashed_password" = none :=
  register_response_hides_credentials hash0 100 "id0" [] user0 (by decide)
    (by decide) (by decide) (by decide) (by decide) rfl

/-- C5: `register` validates fail-fast in source order — a missing field,
then the password length, then the trimmed full-name length — with the
first violation winning, and a validation failure is decided before and
independently of any store access: the same error results for every store
state and storage outcome. The detail strings are the source's; the spec
labels these same three failures "required fields missing", "password too
short" and "name too short". -/
theorem register_validation_fail_fast (gph : String → String) (now : Nat)
    (iid : String) (user : UserCreate) :
    ((user.email = "" ∨ user.password = "" ∨ user.full_name = "") →
      ∀ (db : List Dict) (insertExn : Option StoreExn),
        register gph now iid db insertExn user =
          .error (.validationError
            "Email, password, and full name are required")) ∧
    (user.email ≠ "" → user.password ≠ "" → user.full_name ≠ "" →
      user.password.length < 6 →
      ∀ (db : List Dict) (insertExn : Option StoreExn),
        register gph now iid db insertExn user =
          .error (.validationError
            "Password must be at least 6 characters")) ∧
    (user.email ≠ "" → user.password ≠ "" → user.full_name ≠ "" →
      ¬ user.password.length < 6 → (pyStrip user.full_name).length < 2 →
      ∀ (db : List Dict) (insertExn : Option StoreExn),
        register gph now iid db insertExn user =
          .error (.validationError
            "Full name must be at least 2 characters")) := by
  refine ⟨?_, ?_, ?_⟩
  · intro h db insertExn
    unfold register
    rw [if_pos h]
  · intro h1 h2 h3 h4 db insertExn
    unfold register
    rw [if_neg (by simp [h1, h2, h3]), if_pos h4]
  · intro h1 h2 h3 h4 h5 db insertExn
    unfold register
    rw [if_neg (by simp [h1, h2, h3]), if_neg h4, if_pos h5]

/-- C5 witness: the three validation failures at concrete inputs, each
decided on the empty store. -/
theorem register_validation_fail_fast_witness :
    register hash0 0 "id0" [] none (UserCreate.mk "" "secret1" "Ann A") =
      .error (.validationError
        "Email, password, and full name are required") ∧
    register hash0 0 "id0" [] none (UserCreate.mk "a@x.com" "abc" "Ann A") =
      .error (.validationError "Password must be at least 6 characters") ∧
    register hash0 0 "id0" [] none (UserCreate.mk "a@x.com" "secret1" " B ") =
      .error (.validationError "Full name must be at least 2 characters") :=
  ⟨(register_validation_fail_fast hash0 0 "id0"
      (UserCreate.mk "" "secret1" "Ann A")).1 (Or.inl rfl) [] none,
   (register_validation_fail_fast hash0 0 "id0"
      (UserCreate.mk "a@x.com" "abc" "Ann A")).2.1 (by decide) (by decide)
      (by decide) (by decide) [] none,
   (register_validation_fail_fast hash0 0 "id0"
      (UserCreate.mk "a@x.com" "secret1" " B ")).2.2 (by decide) (by decide)
      (by decide) (by decide) (by decide) [] none⟩

theorem emailMatches_mkUserDict (gph : String → String) (now n : Nat)
    (user : UserCreate) :
    emailMatches (normEmail user.email) (mkUserDict gph now n user) = true := by
  simp [emailMatches, dictGet_mkUserDict_email]

/-- C4: conflict and storage-error behaviour of `register` (insert
try/except as repaired; the body of the `try:` on source line 80 is a
SyntaxError): after a successful registration, a second call for the same
normalized email fails with the uniqueness-check `ConflictError`; a
`DuplicateKeyError` raised by the store's insert is translated to a
`ConflictError` of the same kind; any other storage exception surfaces as
the storage error. -/
theorem register_conflict_and_storage (gph : String → String)
    (now now2 : Nat) (iid iid2 : String) (db : List Dict)
    (user user2 : UserCreate)
    (h1 : user.email ≠ "") (h2 : user.password ≠ "") (h3 : user.full_name ≠ "")
    (h4 : ¬ user.password.length < 6)
    (h5 : ¬ (pyStrip user.full_name).length < 2)
    (h6 : db.find? (emailMatches (normEmail user.email)) = none)
    (g1 : user2.email ≠ "") (g2 : user2.password ≠ "")
    (g3 : user2.full_name ≠ "")
    (g4 : ¬ user2.password.length < 6)
    (g5 : ¬ (pyStrip user2.full_name).length < 2)
    (hsame : normEmail user2.email = normEmail user.email) :
    register gph now iid db none user =
      .ok (userResponse (dictSet (mkUserDict gph now db.length user) "_id"
             (.vStr iid)),
           db ++ [mkUserDict gph now db.length user]) ∧
    register gph now2 iid2 (db ++ [mkUserDict gph now db.length user]) none
        user2 =
      .error (.conflictError "Email already registered") ∧
    (∀ msg, register gph now iid db (some (.duplicateKeyError msg)) user =
      .error (.conflictError "User with this email already exists")) ∧
    (∀ msg, register gph now iid db (some (.otherStoreError msg)) user =
      .error (.storageError msg)) ∧
    (Err.conflictError "Email already registered").kind =
      (Err.conflictError "User with this email already exists").kind := by
  refine ⟨register_ok gph now iid db user h1 h2 h3 h4 h5 h6, ?_, ?_, ?_, rfl⟩
  · have hfound : (((db ++ [mkUserDict gph now db.length user]).find?
        (emailMatches (normEmail user2.email))).isSome) = true := by
      rw [hsame, List.find?_append, h6]
      simp [emailMatches_mkUserDict]
    unfold register
    rw [if_neg (by simp [g1, g2, g3]), if_neg g4, if_neg g5, if_pos hfound]
  · intro msg
    simp [register, h1, h2, h3, h4, h5, h6]
  · intro msg
    simp [register, h1, h2, h3, h4, h5, h6]

/-- C4 witness: against the store holding Ann's record, registering a
differently cased, padded spelling of the same email fails with the
uniqueness-check conflict; a duplicate-key exception at insert is
translated to the conflict error; any other storage exception surfaces as
the storage error; the two conflict errors are of the same kind. -/
theorem register_conflict_and_storage_witness :
    register hash0 100 "id0" [] none user0 =
      .ok (userResponse (dictSet (mkUserDict hash0 100 0 user0) "_id"
             (.vStr "id0")),
           [mkUserDict hash0 100 0 user0]) ∧
    register hash0 101 "id1" [mkUserDict hash0 100 0 user0] none userDup =
      .error (.conflictError "Email already registered") ∧
    register hash0 100 "id0" [] (some (.duplicateKeyError "E11000")) user0 =
      .error (.conflictError "User with this email already exists") ∧
    register hash0 100 "id0" [] (some (.otherStoreError "store down")) user0 =
      .error (.storageError "store down") ∧
    (Err.conflictError "Email already registered").kind =
      (Err.conflictError "User with this email already exists").kind := by
  have h := register_conflict_and_storage hash0 100 101 "id0" "id1" [] user0
    userDup (by decide) (by decide) (by decide) (by decide) (by decide) rfl
    (by decide) (by decide) (by decide) (by decide) (by decide) (by decide)
  exact ⟨h.1, h.2.1, h.2.2.1 "E11000", h.2.2.2.1 "store down", h.2.2.2.2⟩

theorem login_after_register (gph : String → String) (now n t m : Nat)
    (db : List Dict) (user : UserCreate)
    (h6 : db.find? (emailMatches (normEmail user.email)) = none) :
    login gph t m (db ++ [mkUserDict gph now n user]) user.email
        user.password =
      .ok ⟨⟨normEmail user.email, t + m⟩, "bearer"⟩ := by
  unfold login authenticate_user
  rw [List.find?_append, h6]
  simp [emailMatches_mkUserDict, verify_password, dictGet_mkUserDict_hashed,
        userEmail, dictGet_mkUserDict_email, create_access_token]

/-- C6: after a successful registration, login with the correct email and
password returns a token whose encoded subject is the user's normalized
(stored) email and whose expiry is the issuance instant plus the
configured lifetime in minutes, together with the token-kind marker
"bearer" (authentication and token issuance are modelled from the
spec). -/
theorem login_token_contents (gph : String → String) (now t m : Nat)
    (iid : String) (db : List Dict) (user : UserCreate)
    (h1 : user.email ≠ "") (h2 : user.password ≠ "") (h3 : user.full_name ≠ "")
    (h4 : ¬ user.password.length < 6)
    (h5 : ¬ (pyStrip user.full_name).length < 2)
    (h6 : db.find? (emailMatches (normEmail user.email)) = none) :
    register gph now iid db none user =
      .ok (userResponse (dictSet (mkUserDict gph now db.length user) "_id"
             (.vStr iid)),
           db ++ [mkUserDict gph now db.length user]) ∧
    login gph t m (db ++ [mkUserDict gph now db.length user]) user.email
        user.password =
      .ok ⟨⟨normEmail user.email, t + m⟩, "bearer"⟩ :=
  ⟨register_ok gph now iid db user h1 h2 h3 h4 h5 h6,
   login_after_register gph now db.length t m db user h6⟩

/-- C6 witness: Ann registers and logs in at instant 200 with a 30-minute
lifetime; the token's subject is her normalized email and it expires at
230, with marker "bearer". -/
theorem login_token_contents_witness :
    register hash0 100 "id0" [] none user0 =
      .ok (userResponse (dictSet (mkUserDict hash0 100 0 user0) "_id"
             (.vStr "id0")),
           [mkUserDict hash0 100 0 user0]) ∧
    login hash0 200 30 [mkUserDict hash0 100 0 user0] user0.email
        user0.password =
      .ok ⟨⟨normEmail user0.email, 230⟩, "bearer"⟩ :=
  login_token_contents hash0 100 200 30 "id0" [] user0 (by decide) (by decide)
    (by decide) (by decide) (by decide) rfl

/-- C7: round trip — applying `currentUser` (modelled from the spec)
before expiry to the token returned by a successful login yields exactly
the user record `register` persisted for that user. -/
theorem currentUser_roundtrip (gph : String → String) (now t m t2 : Nat)
    (iid : String) (db : List Dict) (user : UserCreate)
    (h1 : user.email ≠ "") (h2 : user.password ≠ "") (h3 : user.full_name ≠ "")
    (h4 : ¬ user.password.length < 6)
    (h5 : ¬ (pyStrip user.full_name).length < 2)
    (h6 : db.find? (emailMatches (normEmail user.email)) = none)
    (hexp : t2 < t + m) :
    register gph now iid db none user =
      .ok (userResponse (dictSet (mkUserDict gph now db.length user) "_id"
             (.vStr iid)),
           db ++ [mkUserDict gph now db.length user]) ∧
    login gph t m (db ++ [mkUserDict gph now db.length user]) user.email
        user.password =
      .ok ⟨⟨normEmail user.email, t + m⟩, "bearer"⟩ ∧
    get_current_active_user (db ++ [mkUserDict gph now db.length user]) t2
        ⟨normEmail user.email, t + m⟩ =
      .ok (mkUserDict gph now db.length user) := by
  refine ⟨register_ok gph now iid db user h1 h2 h3 h4 h5 h6,
          login_after_register gph now db.length t m db user h6, ?_⟩
  unfold get_current_active_user
  rw [if_pos hexp, List.find?_append, h6]
  simp [emailMatches_mkUserDict]

/-- C7 witness: Ann registers, logs in at instant 200, and presenting the
returned token at instant 210 yields exactly her stored record. -/
theorem currentUser_roundtrip_witness :
    register hash0 100 "id0" [] none user0 =
      .ok (userResponse (dictSet (mkUserDict hash0 100 0 user0) "_id"
             (.vStr "id0")),
           [mkUserDict hash0 100 0 user0]) ∧
    login hash0 200 30 [mkUserDict hash0 100 0 user0] user0.email
        user0.password =
      .ok ⟨⟨normEmail user0.email, 230⟩, "bearer"⟩ ∧
    get_current_active_user [mkUserDict hash0 100 0 user0] 210
        ⟨normEmail user0.email, 230⟩ =
      .ok (mkUserDict hash0 100 0 user0) :=
  currentUser_roundtrip hash0 100 200 30 210 "id0" [] user0 (by decide)
    (by decide) (by decide) (by decide) (by decide) rfl (by decide)

/-- C8: two-run indistinguishability of login failures — a login for an
email absent from the store and a login for a present email with a wrong
password produce the very same `AuthenticationError` value, kind and
detail alike (authentication is modelled from the spec). -/
theorem login_indistinguishable (gph : String → String) (now m : Nat)
    (db : List Dict) (e1 p1 e2 p2 : String) (u : Dict)
    (habsent : db.find? (emailMatches (normEmail e1)) = none)
    (hfound : db.find? (emailMatches (normEmail e2)) = some u)
    (hwrong : verify_password gph p2 u = false) :
    login gph now m db e1 p1 = login gph now m db e2 p2 ∧
    login gph now m db e1 p1 =
      .error (.authenticationError "Incorrect email or password") := by
  have hA : login gph now m db e1 p1 =
      .error (.authenticationError "Incorrect email or password") := by
    simp [login, authenticate_user, habsent]
  have hB : login gph now m db e2 p2 =
      .error (.authenticationError "Incorrect email or password") := by
    simp [login, authenticate_user, hfound, hwrong]
  exact ⟨hA.trans hB.symm, hA⟩

/-- C8 witness: against the store holding only Ann's record, a login for
an unknown email and a login for Ann's email with a wrong password return
the identical authentication error. -/
theorem login_indistinguishable_witness :
    login hash0 200 30 [mkUserDict hash0 100 0 user0] "ghost@x.com" "whatever"
      = login hash0 200 30 [mkUserDict hash0 100 0 user0] "a@x.com" "wrong1" ∧
    login hash0 200 30 [mkUserDict hash0 100 0 user0] "ghost@x.com" "whatever"
      = .error (.authenticationError "Incorrect email or password") :=
  login_indistinguishable hash0 200 30 [mkUserDict hash0 100 0 user0]
    "ghost@x.com" "whatever" "a@x.com" "wrong1" (mkUserDict hash0 100 0 user0)
    rfl rfl rfl

/-- C9: the workspace-admin check (modelled from the spec) answers true
precisely when the user's global `is_admin` flag is set or the user's
`workspaces` collection holds an entry for the workspace whose role is
`admin` or `owner`; it is a total boolean decision, so a non-admin gets
`false`, never an error. -/
theorem check_admin_access_iff (user : CurrentUser) (workspace_id : String) :
    (check_admin_access user workspace_id).1 = true ↔
      (user.is_admin = true ∨
        ∃ mem ∈ user.workspaces, mem.workspace_id = workspace_id ∧
          (mem.role = "admin" ∨ mem.role = "owner")) := by
  simp [check_admin_access, verify_workspace_admin, List.any_eq_true,
        and_assoc]
